import Mathlib

/-!
Shallow embedding of the dynamic-extension loading layer of the repository
(`src/crates/exex/exex/src/dyexex.rs`, `src/crates/exex/exex/src/dyn_context.rs`)
and of the block-body trait defaults
(`src/crates/primitives-traits/src/block/body.rs`), together with theorems
settling the specification claims about them.
-/

namespace Spec2Proof

/-! ## Block body (src/crates/primitives-traits/src/block/body.rs)

The trait `BlockBody` is modelled as a structure carrying the one accessor the
default methods use, `transactions()`. Transactions are modelled by the data
the default methods observe: the `u8` returned by `Transaction::ty()` (kept as
a `Nat`, the value of the `u8`), plus an opaque payload so that distinct
transactions with the same type are distinguishable. -/

/-- Transaction types of `alloy_consensus::TxType` used by the body defaults. -/
inductive TxType where
  | legacy
  | eip2930
  | eip1559
  | eip4844
  | eip7702
deriving DecidableEq

/-- The `as u8` value of each `TxType` variant (its discriminant). -/
def TxType.toU8 : TxType → Nat
  | .legacy => 0
  | .eip2930 => 1
  | .eip1559 => 2
  | .eip4844 => 3
  | .eip7702 => 4

/-- A signed transaction as observed by the body defaults: `ty` is the value of
`Transaction::ty() as u8`; `payload` stands for the rest of the transaction. -/
structure SignedTransaction where
  ty : Nat
  payload : Nat
deriving DecidableEq

/-- A block body: the ordered list returned by `BlockBody::transactions()`. -/
structure BlockBody where
  transactions : List SignedTransaction
deriving DecidableEq

/-- `BlockBody::has_blob_transactions`:
`self.transactions().iter().any(|tx| tx.ty() as u8 == TxType::Eip4844 as u8)`. -/
def BlockBody.has_blob_transactions (b : BlockBody) : Bool :=
  b.transactions.any fun tx => tx.ty == TxType.toU8 TxType.eip4844

/-- `BlockBody::blob_transactions_iter`:
`self.transactions().iter().filter(|tx| tx.ty() as u8 == TxType::Eip4844 as u8)`. -/
def BlockBody.blob_transactions_iter (b : BlockBody) : List SignedTransaction :=
  b.transactions.filter fun tx => tx.ty == TxType.toU8 TxType.eip4844

/-- `BlockBody::blob_transactions`: `self.blob_transactions_iter().collect()`. -/
def BlockBody.blob_transactions (b : BlockBody) : List SignedTransaction :=
  b.blob_transactions_iter

/-! ## Library discovery (src/crates/exex/exex/src/dyexex.rs)

`load_library_paths` walks one directory and classifies each entry. The
platform constants are taken at their Linux values (`std::env::consts`):
`DLL_PREFIX = "lib"` and `DLL_SUFFIX = ".so"` — note the source binds
`DYLIB_EXTENSION` to `DLL_SUFFIX`, which includes the leading dot, on every
platform. -/

/-- The constant the source names `DYLIB_PREFIX` (`env::consts::DLL_PREFIX`),
at its Linux value. (The source name cannot be used verbatim here.) -/
def DYLIB_PFX : String := "lib"

/-- `DYLIB_EXTENSION` = `env::consts::DLL_SUFFIX`, at its Linux value.
On every platform this constant includes the leading dot. -/
def DYLIB_EXTENSION : String := ".so"

/-- Index of the last occurrence of a dot in a character list, if any. -/
def lastDotIdx (cs : List Char) : Option Nat :=
  ((List.range cs.length).filter fun i => cs.getD i ' ' == '.').getLast?

/-- Rust `Path::extension()` applied to a plain file name: the portion of the
file name after the last dot, `none` when there is no dot or when the only dot
is the leading character (hidden files such as `.bashrc`). The returned
extension never contains a dot and never includes the leading dot itself. -/
def fileExtension (name : String) : Option String :=
  match lastDotIdx name.toList with
  | none => none
  | some 0 => none
  | some i => some (String.mk (name.toList.drop (i + 1)))

/-- Rust `str::strip_prefix`: drops the pattern from the front when it is
there, `none` otherwise (stated on the character sequences of the strings). -/
def stripPfx (p s : String) : Option String :=
  if p.toList.isPrefixOf s.toList then
    some (String.mk (s.toList.drop p.toList.length))
  else none

/-- One directory entry as observed by the scan: its file name and whether
`path.is_file()` holds (regular file). -/
structure FsEntry where
  name : String
  isFile : Bool
deriving DecidableEq

/-- The directory handed to `load_library_paths`: whether the path denotes a
directory, whether `read_dir` succeeds, and the listed entries, each either a
readable entry or a read error (`Except.error ()`). -/
structure DirListing where
  isDir : Bool
  readDirOk : Bool
  entries : List (Except Unit FsEntry)

/-- Outcome of a call that can return a value, return an error, or panic
(the source calls `.unwrap()` on each directory entry). -/
inductive Outcome (α : Type) where
  | ok (val : α)
  | err (msg : String)
  | panicked
deriving DecidableEq

/-- Whether an outcome is a returned error (as opposed to a value or a panic). -/
def Outcome.isErr {α : Type} : Outcome α → Bool
  | .err _ => true
  | _ => false

/-- Per-entry classification, from the body of the `flat_map` closure: the
entry must be a regular file, `path.extension()` must equal `DYLIB_EXTENSION`,
and the file name with `DYLIB_PREFIX` stripped becomes the ExEx id, paired
with the path (carried here as the file name). -/
def classifyEntry (e : FsEntry) : Option (String × String) :=
  if e.isFile then
    match fileExtension e.name with
    | some ext =>
      if ext == DYLIB_EXTENSION then
        match stripPfx DYLIB_PFX e.name with
        | some exex_id => some (exex_id, e.name)
        | none => none
      else none
    | none => none
  else none

/-- The scan over the directory entries: each entry is first unwrapped
(`dir_entry.unwrap()` — a panic when the entry is a read error), then
classified; classified pairs are collected in order. -/
def scanEntries : List (Except Unit FsEntry) → Outcome (List (String × String))
  | [] => .ok []
  | Except.error _ :: _ => .panicked
  | Except.ok e :: rest =>
    match scanEntries rest with
    | .ok acc => .ok ((classifyEntry e).toList ++ acc)
    | out => out

/-- `load_library_paths`: bails with "Provided path is not a directory" when
the path is not a directory, propagates a `read_dir` failure as an error, and
otherwise scans the entries. -/
def load_library_paths (d : DirListing) : Outcome (List (String × String)) :=
  if d.isDir then
    if d.readDirOk then scanEntries d.entries
    else .err "failed to read dir"
  else .err "Provided path is not a directory"

/-! ## Dynamic loader (src/crates/exex/exex/src/dyexex.rs, `load_library`)

`load_library` performs a fixed sequence of resource actions:
`libloading::Library::new(path)?` opens the library;
`lib.get(USER_FN_NAME)?` resolves the symbol — on failure the `?` returns
early and `lib` goes out of scope, and dropping a `libloading::Library`
unloads (releases) the mapped library; on success
`Box::from_raw(raw_func_pointer(ctx))` reclaims the pointer returned by the
entrypoint into an owned box, and `mem::forget(lib)` suppresses the drop so
the handle is never released. The model records this sequence as an explicit
event trace, parameterised by whether opening and symbol resolution succeed
and by the pointer value the entrypoint returns. -/

/-- Resource events performed by `load_library` on the library handle and the
raw task pointer. `releaseLib` is the drop of the `libloading::Library`
(which unloads the mapped library); `reclaim p` is `Box::from_raw` on
pointer `p`; `forgetLib` is `mem::forget(lib)`. -/
inductive LibEvent where
  | openLib
  | releaseLib
  | reclaim (p : Nat)
  | forgetLib
deriving DecidableEq

/-- Error cases of `load_library`: the file cannot be mapped, or the
well-known symbol cannot be resolved. -/
inductive LoadErr where
  | libraryLoadFailure
  | symbolResolutionFailure
deriving DecidableEq

/-- `load_library`, as a function from the two fallible steps and the pointer
the entrypoint returns, to the returned result (the reclaimed box, carried as
the pointer it owns) together with the trace of resource events, in program
order. On the symbol-failure path the early `?` return drops `lib`, which
releases the library; on the success path `mem::forget` replaces that drop. -/
def load_library (openOk symOk : Bool) (entryPtr : Nat) :
    Except LoadErr Nat × List LibEvent :=
  if openOk then
    if symOk then
      (Except.ok entryPtr, [.openLib, .reclaim entryPtr, .forgetLib])
    else
      (Except.error .symbolResolutionFailure, [.openLib, .releaseLib])
  else
    (Except.error .libraryLoadFailure, [])

/-- Whether an event is a `Box::from_raw` reclaim. -/
def LibEvent.isReclaim : LibEvent → Bool
  | .reclaim _ => true
  | _ => false

/-- Whether an `Except` is the success case. -/
def exceptIsOk {ε α : Type} : Except ε α → Bool
  | .ok _ => true
  | .error _ => false

/-! ## Export contract (`define_exex` macro vs the loader)

The shapes of the Rust types appearing on the two sides of the boundary.
`ExExContext<Node>` is the argument type both sides use. The loader resolves
the symbol at type `unsafe fn(ExExContext<Node>) -> *mut dyn
BoxedLaunchExEx<Node>` — returning a raw (fat) pointer to the erased trait
object. The function the `define_exex` macro generates returns
`impl std::future::Future<Output = eyre::Result<impl Future<Output =
eyre::Result<()>> + Send>>` — an opaque future returned by value. A raw
pointer type and a by-value opaque future type are distinct Rust types with
distinct ABIs, hence distinct constructors here. -/

/-- Rust type shapes relevant to the exported-symbol contract. -/
inductive RustTy where
  | exExContext
  | rawPtrDynBoxedLaunchExEx
  | implTwoLevelFuture
deriving DecidableEq

/-- An exported function declaration: symbol name, mangling and visibility
attributes, and the argument and return type shapes. -/
structure ExportDecl where
  symbol : String
  noMangle : Bool
  isPub : Bool
  argTy : RustTy
  retTy : RustTy
deriving DecidableEq

/-- `USER_FN_NAME = b"_launch_exex"`: the symbol name the loader resolves. -/
def USER_FN_NAME : String := "_launch_exex"

/-- The export generated by `define_exex!($user_fn)`:
`#[no_mangle] pub extern fn _launch_exex<Node: FullNodeComponents>(ctx:
ExExContext<Node>) -> impl Future<Output = eyre::Result<impl Future<Output =
eyre::Result<()>> + Send>>`. -/
def define_exex_export : ExportDecl :=
  { symbol := "_launch_exex"
    noMangle := true
    isPub := true
    argTy := .exExContext
    retTy := .implTwoLevelFuture }

/-- The argument type at which `load_library` resolves the symbol. -/
def loader_expected_arg : RustTy := .exExContext

/-- The return type at which `load_library` resolves the symbol:
`*mut dyn BoxedLaunchExEx<Node>`. -/
def loader_expected_ret : RustTy := .rawPtrDynBoxedLaunchExEx

/-! ## Type-erased context mirror (src/crates/exex/exex/src/dyn_context.rs)

`ExExContextDyn` holds `head`, `config : NodeConfig<Box<dyn EthChainSpec>>`,
`reth_config` and `events`; the `From<ExExContext<Node>>` impl copies `head`,
`reth_config` and `events` and converts `config` with
`NodeConfig::into_dyn()`. Field payloads whose structure the conversion never
inspects (`Head`, `reth_config::Config`, the identity of the
`UnboundedSender` endpoint) are carried as opaque `Nat` values. The concrete
chain-spec type is a type parameter `CS`; `Box<dyn EthChainSpec>` is
modelled as the record of read-only operations observable through the
`EthChainSpec` trait, and the erasure as a function producing that record. -/

/-- The erased chain spec `Box<dyn EthChainSpec>`: the read-only operations
observable through the trait object (represented by one opaque observation). -/
structure DynChainSpec where
  readOnlyOps : Nat
deriving DecidableEq

/-- `NodeConfig<CS>`: the chain-spec field that `into_dyn` erases, plus the
remaining configuration fields (opaque, not inspected by the conversion). -/
structure NodeConfig (CS : Type) where
  chain : CS
  otherCfg : Nat
deriving DecidableEq

/-- Modelled from the spec: `NodeConfig::into_dyn` lives in `reth_node_core`,
outside the sources given here. Per the spec it maps the concrete
chain-specification into a dynamically-dispatched equivalent exposing the
same read-only operations, leaving the rest of the configuration unchanged.
The erasure is passed in as the function `eraseCS` from the concrete
chain-spec to its capability record. -/
def NodeConfig.into_dyn {CS : Type} (eraseCS : CS → DynChainSpec)
    (c : NodeConfig CS) : NodeConfig DynChainSpec :=
  { chain := eraseCS c.chain, otherCfg := c.otherCfg }

/-- `ExExContext<Node>`: the fields the conversion reads (`head`, `config`,
`reth_config`, `events`) plus the notification stream, which the source
`From` impl does not carry over (marked TODO in the source). -/
structure ExExContext (CS : Type) where
  head : Nat
  config : NodeConfig CS
  reth_config : Nat
  events : Nat
  notificationsField : Nat

/-- `ExExContextDyn`: the type-erased mirror, with exactly the four fields of
the source struct. -/
structure ExExContextDyn where
  head : Nat
  config : NodeConfig DynChainSpec
  reth_config : Nat
  events : Nat
deriving DecidableEq

/-- The `From<ExExContext<Node>> for ExExContextDyn` impl: copies `head`,
`reth_config` and `events`, and erases `config` via `into_dyn`. -/
def ExExContextDyn.ofContext {CS : Type} (eraseCS : CS → DynChainSpec)
    (ctx : ExExContext CS) : ExExContextDyn :=
  { head := ctx.head
    config := ctx.config.into_dyn eraseCS
    reth_config := ctx.reth_config
    events := ctx.events }

/-! ## Helper lemmas -/

/-- An entry that is not a regular file, or whose extension is not
`DYLIB_EXTENSION`, or whose name does not start with the prefix constant, is
classified to `none`. -/
theorem classifyEntry_eq_none (e : FsEntry)
    (h : e.isFile = false ∨ fileExtension e.name ≠ some DYLIB_EXTENSION ∨
      stripPfx DYLIB_PFX e.name = none) :
    classifyEntry e = none := by
  rcases h with h | h | h
  · simp [classifyEntry, h]
  · cases hf : e.isFile
    · simp [classifyEntry, hf]
    · cases hx : fileExtension e.name with
      | none => simp [classifyEntry, hf, hx]
      | some ext =>
        have hne : (ext == DYLIB_EXTENSION) = false := by
          rw [beq_eq_false_iff_ne]
          intro hc
          exact h (by rw [hx, hc])
        simp [classifyEntry, hf, hx, hne]
  · cases hf : e.isFile
    · simp [classifyEntry, hf]
    · cases hx : fileExtension e.name with
      | none => simp [classifyEntry, hf, hx]
      | some ext =>
        by_cases hext : (ext == DYLIB_EXTENSION) = true
        · simp [classifyEntry, hf, hx, hext, h]
        · simp [classifyEntry, hf, hx, hext]

/-- Dropping an entry whose classification is `none` from anywhere in the
entry list leaves the scan result unchanged. -/
theorem scanEntries_skip (e : FsEntry) (hc : classifyEntry e = none)
    (pre post : List (Except Unit FsEntry)) :
    scanEntries (pre ++ Except.ok e :: post) = scanEntries (pre ++ post) := by
  induction pre with
  | nil =>
    cases h : scanEntries post <;>
      simp [scanEntries, hc, h]
  | cons x xs ih =>
    cases x with
    | error u => rfl
    | ok f => simp only [List.cons_append, scanEntries, List.append_eq, ih]

/-! ## Claim theorems -/

/-- C1. The claim says a file named `<platform-prefix>foo<platform-suffix>`
(here `libfoo.so`) yields the pair `("foo", path)`, with both affixes
stripped. The code does not: `path.extension()` yields `"so"` (no dot) while
`DYLIB_EXTENSION` is `DLL_SUFFIX = ".so"` (with dot), so the extension test
never succeeds and the scan yields nothing at all; moreover the classifier
strips only the leading affix, so a match would have produced `"foo.so"`,
not `"foo"`. -/
theorem discovery_misses_matching_file :
    load_library_paths ⟨true, true, [Except.ok ⟨"libfoo.so", true⟩]⟩ =
      Outcome.ok [] ∧
    fileExtension "libfoo.so" = some "so" ∧
    DYLIB_EXTENSION = ".so" ∧
    stripPfx DYLIB_PFX "libfoo.so" = some "foo.so" :=
  ⟨by decide, by decide, rfl, by decide⟩

/-- C2, counterexample. When the library opens but the well-known symbol
cannot be resolved, the `?` early return drops the `libloading::Library`,
releasing the handle within the call — contradicting the claim that the
handle is never released whether the call returns Ok or Err. -/
theorem load_library_releases_on_symbol_failure :
    LibEvent.releaseLib ∈ (load_library true false 0).2 ∧
    exceptIsOk (load_library true false 0).1 = false := by
  exact ⟨by decide, by decide⟩

/-- C2, amended. The library handle is released within the call exactly when
the library was opened but symbol resolution failed; in particular on every
successful call (and when the file cannot even be mapped, where no handle
exists) the handle is never released — on success `mem::forget` keeps it
resident for the remainder of the process. -/
theorem load_library_release_iff (openOk symOk : Bool) (p : Nat) :
    LibEvent.releaseLib ∈ (load_library openOk symOk p).2 ↔
      openOk = true ∧ symOk = false := by
  cases openOk <;> cases symOk <;> simp [load_library]

/-- C3. The generated export carries the fixed symbol name the loader
resolves (`_launch_exex`), is non-mangled and public, and takes the context
argument — but its return type is the by-value opaque two-level future
`impl Future<Output = Result<impl Future<...> + Send>>`, not the raw pointer
`*mut dyn BoxedLaunchExEx<Node>` at which the loader resolves the symbol:
the return types disagree, so the export does not match the loader's
expectation. -/
theorem define_exex_export_mismatch :
    define_exex_export.symbol = USER_FN_NAME ∧
    define_exex_export.noMangle = true ∧
    define_exex_export.isPub = true ∧
    define_exex_export.argTy = loader_expected_arg ∧
    define_exex_export.retTy ≠ loader_expected_ret := by
  refine ⟨rfl, rfl, rfl, rfl, by decide⟩

/-- C4. The reclaim events of a `load_library` call are exactly one
`Box::from_raw` on the pointer the entrypoint returned when the call
succeeds, and none otherwise: the pointer is reclaimed exactly once, never
twice, and never leaked. -/
theorem load_library_reclaims_exactly_once (openOk symOk : Bool) (p : Nat) :
    (load_library openOk symOk p).2.filter LibEvent.isReclaim =
      (if exceptIsOk (load_library openOk symOk p).1 then [LibEvent.reclaim p]
       else []) := by
  cases openOk <;> cases symOk <;>
    simp [load_library, LibEvent.isReclaim, exceptIsOk]

/-- C5. On any path that is not a directory, `load_library_paths` fails with
the invalid-directory error; no entry is scanned and no partial result is
produced. -/
theorem load_library_paths_not_dir (d : DirListing) (h : d.isDir = false) :
    load_library_paths d = Outcome.err "Provided path is not a directory" := by
  simp [load_library_paths, h]

/-- C5, witness: a concrete non-directory listing, with entries present that
are never examined. -/
theorem load_library_paths_not_dir_witness :
    (DirListing.mk false true [Except.ok ⟨"libfoo.so", true⟩]).isDir = false ∧
    load_library_paths ⟨false, true, [Except.ok ⟨"libfoo.so", true⟩]⟩ =
      Outcome.err "Provided path is not a directory" :=
  ⟨rfl,
   load_library_paths_not_dir ⟨false, true, [Except.ok ⟨"libfoo.so", true⟩]⟩
     rfl⟩

/-- C6. A directory entry that is not a regular file, or whose extension is
not the shared-library suffix constant, or whose name does not carry the
shared-library name affix, is excluded from the result set: removing it from
the listing leaves the outcome of `load_library_paths` unchanged (in
particular it causes no error). -/
theorem load_library_paths_skips_nonmatching
    (pre post : List (Except Unit FsEntry)) (e : FsEntry)
    (h : e.isFile = false ∨ fileExtension e.name ≠ some DYLIB_EXTENSION ∨
      stripPfx DYLIB_PFX e.name = none) :
    load_library_paths ⟨true, true, pre ++ Except.ok e :: post⟩ =
      load_library_paths ⟨true, true, pre ++ post⟩ := by
  simp only [load_library_paths, if_true]
  exact scanEntries_skip e (classifyEntry_eq_none e h) pre post

/-- C6, witness: a concrete `readme.txt` regular file is skipped. -/
theorem load_library_paths_skips_nonmatching_witness :
    (fileExtension "readme.txt" ≠ some DYLIB_EXTENSION) ∧
    load_library_paths ⟨true, true, [Except.ok ⟨"readme.txt", true⟩]⟩ =
      load_library_paths ⟨true, true, []⟩ :=
  ⟨by decide,
   load_library_paths_skips_nonmatching [] [] ⟨"readme.txt", true⟩
     (Or.inr (Or.inl (by decide)))⟩

/-- C7. The conversion from the generic context to its type-erased mirror
carries every field over unchanged: the chain head snapshot, the node
configuration (its chain spec erased to the capability record exposing the
same read-only operations, all other configuration unchanged), the loaded
on-disk configuration, and the identity of the event-channel send
endpoint. -/
theorem exex_context_into_dyn_preserves_fields {CS : Type}
    (eraseCS : CS → DynChainSpec) (ctx : ExExContext CS) :
    (ExExContextDyn.ofContext eraseCS ctx).head = ctx.head ∧
    (ExExContextDyn.ofContext eraseCS ctx).config.chain =
      eraseCS ctx.config.chain ∧
    (ExExContextDyn.ofContext eraseCS ctx).config.otherCfg =
      ctx.config.otherCfg ∧
    (ExExContextDyn.ofContext eraseCS ctx).reth_config = ctx.reth_config ∧
    (ExExContextDyn.ofContext eraseCS ctx).events = ctx.events :=
  ⟨rfl, rfl, rfl, rfl, rfl⟩

/-- C8, counterexample. With one unreadable directory entry the scan panics
(the source unwraps each entry); the call does not return an error value, so
the failure is not propagated to the caller as an I/O error. -/
theorem load_library_paths_panics_on_bad_entry :
    load_library_paths ⟨true, true, [Except.error ()]⟩ = Outcome.panicked ∧
    (load_library_paths ⟨true, true, [Except.error ()]⟩).isErr = false := by
  exact ⟨by decide, by decide⟩

/-- C8, amended. An unreadable directory entry anywhere in the scan is fatal
to the whole call, but by panic (the per-entry `unwrap`), not by returning
an I/O error: the call never completes with a result or an error value. -/
theorem load_library_paths_bad_entry_fatal_panic
    (pre post : List (Except Unit FsEntry)) :
    load_library_paths ⟨true, true, pre ++ Except.error () :: post⟩ =
      Outcome.panicked := by
  simp only [load_library_paths, if_true]
  induction pre with
  | nil => rfl
  | cons x xs ih =>
    cases x with
    | error u => rfl
    | ok e => simp only [List.cons_append, scanEntries, List.append_eq, ih]

/-- C9. `has_blob_transactions` holds exactly when some transaction of the
body has the EIP-4844 transaction type. -/
theorem has_blob_transactions_iff (b : BlockBody) :
    b.has_blob_transactions = true ↔
      ∃ tx, tx ∈ b.transactions ∧ tx.ty = TxType.toU8 TxType.eip4844 := by
  simp [BlockBody.has_blob_transactions, List.any_eq_true]

/-- C10. `blob_transactions` equals the collected `blob_transactions_iter`,
is a sublist of the body's transactions (same relative order), its members
are exactly the transactions of the body with the EIP-4844 type, and each
transaction occurs in it exactly as often as in the body when it is a blob
transaction and never otherwise. -/
theorem blob_transactions_spec (b : BlockBody) :
    b.blob_transactions = b.blob_transactions_iter ∧
    List.Sublist b.blob_transactions b.transactions ∧
    (∀ tx, tx ∈ b.blob_transactions ↔
      tx ∈ b.transactions ∧ tx.ty = TxType.toU8 TxType.eip4844) ∧
    (∀ tx, b.blob_transactions.count tx =
      if tx.ty = TxType.toU8 TxType.eip4844 then b.transactions.count tx
      else 0) := by
  refine ⟨rfl, List.filter_sublist _, ?_, ?_⟩
  · intro tx
    simp [BlockBody.blob_transactions, BlockBody.blob_transactions_iter,
      List.mem_filter]
  · intro tx
    by_cases h : tx.ty = TxType.toU8 TxType.eip4844
    · rw [if_pos h]
      exact List.count_filter (by simp [h])
    · rw [if_neg h]
      refine List.count_eq_zero.mpr ?_
      simp [BlockBody.blob_transactions, BlockBody.blob_transactions_iter,
        List.mem_filter, h]

end Spec2Proof
